import Mathlib

/-!
Verification development for the mouse-callback bridge header
(modules/highgui_gocv.h). The header declares a function-pointer type for
mouse callbacks and one C-linkage bridging function that forwards a window
name, a callback pointer and a user-data pointer into the underlying
windowing library. The repository contains only the header; the forwarding
body and the library's behavior are modelled from the specification where a
claim needs them, and the header's own syntactic structure is embedded
directly from the source file.
-/

namespace Gocvui

/-- An opaque machine pointer, modelled as a natural-number address; 0 is
the null pointer. -/
abbrev Ptr := Nat

/-- A native error code of the wrapped windowing library. -/
abbrev LibError := Nat

/-- The wrapped windowing library's observable registration state: its
internal mouse-callback table, mapping a window name to the registered
callback pointer and user-data pointer, when there is one. -/
structure LibState where
  table : String → Option (Ptr × Ptr)

/-- The library state in which no window has a registration. -/
def emptyLib : LibState := ⟨fun _ => none⟩

/-- Modelled from the spec: the wrapped library's callback-table update on a
successful registration (the bridge's body is not in the repository, only
its declaration is): the table entry for the named window is overwritten
with the new callback and user-data pointers, and no other entry changes. -/
def registerTable (winname : String) (on_mouse param : Ptr) (s : LibState) : LibState :=
  ⟨fun w => if w = winname then some (on_mouse, param) else s.table w⟩

/-- Modelled from the spec: the wrapped library is an opaque external
collaborator, so its registration entry point is an arbitrary function that
either succeeds with a new library state or fails with a native error. -/
def LibRegister : Type := String → Ptr → Ptr → LibState → Except LibError LibState

/-- Modelled from the spec: the library's documented success-path behavior,
in which registration succeeds and updates the callback table. -/
def okLib : LibRegister := fun w c p s => Except.ok (registerTable w c p s)

/-- Modelled from the spec: the body of Set_Mouse_Callback, which is missing
from the repository (the header holds only its declaration): a single
stateless pass-through call into the underlying library's registration entry
point, forwarding all three arguments uninterpreted. -/
def Set_Mouse_Callback (lib : LibRegister) (winname : String) (on_mouse param : Ptr) (s : LibState) : Except LibError LibState :=
  lib winname on_mouse param s

/-- One invocation of a registered mouse callback: the callback pointer
being invoked together with the exact five argument slots it receives. -/
structure Invocation where
  cb : Ptr
  event : Int
  x : Int
  y : Int
  flags : Int
  param : Ptr
deriving DecidableEq

/-- Modelled from the spec: the library delivering a mouse event on a
window: when a callback is registered for that window, it is invoked with
the current event kind, cursor coordinates, flags bitmask, and the user-data
pointer stored at registration; otherwise nothing is invoked. -/
def dispatchEvent (s : LibState) (w : String) (event x y flags : Int) : Option Invocation :=
  match s.table w with
  | some cp => some ⟨cp.1, event, x, y, flags, cp.2⟩
  | none => none

/-- Running a sequence of registrations (window, callback, user data)
through the library's table update. -/
def runRegs (regs : List (String × Ptr × Ptr)) (s : LibState) : LibState :=
  regs.foldl (fun t r => registerTable r.1 r.2.1 r.2.2 t) s

/-- One call issued into the underlying library: the three forwarded
arguments. -/
structure LibCall where
  winname : String
  on_mouse : Ptr
  param : Ptr
deriving DecidableEq

/-- Modelled from the spec: one shim invocation on the success-path library,
returning the new library state together with the calls the shim issues: a
single pass-through call carrying exactly its three arguments. -/
def shimStep (a : LibCall) (s : LibState) : LibState × List LibCall :=
  (registerTable a.winname a.on_mouse a.param s, [a])

/-- Running a sequence of shim invocations, threading the library state and
concatenating the issued calls. -/
def shimRun : List LibCall → LibState → LibState × List LibCall
  | [], s => (s, [])
  | a :: rest, s =>
    let one := shimStep a s
    let more := shimRun rest one.1
    (more.1, one.2 ++ more.2)

/-- The C types appearing in the header. -/
inductive CType where
  | void
  | int
  | constCharPtr
  | voidPtr
  | funPtr (args : List CType) (ret : CType)

/-- Number of parameters of a function-pointer type (0 for non-function
types). -/
def CType.arity : CType → Nat
  | CType.funPtr args _ => args.length
  | _ => 0

/-- The typedef on line 9 of the header: MouseCallback is a pointer to a
function taking (int event, int x, int y, int flags, void* param) and
returning void. -/
def MouseCallback : CType :=
  CType.funPtr [CType.int, CType.int, CType.int, CType.int, CType.voidPtr] CType.void

/-- A C function declaration: name, parameter types in order, return type. -/
structure CFunDecl where
  name : String
  params : List CType
  ret : CType

/-- The declaration on line 11 of the header:
void Set_Mouse_Callback(const char* winname, void* on_mouse, void* param). -/
def Set_Mouse_Callback_decl : CFunDecl :=
  ⟨"Set_Mouse_Callback", [CType.constCharPtr, CType.voidPtr, CType.voidPtr], CType.void⟩

/-- The two declarations the header introduces. -/
inductive HeaderDeclName where
  | mouseCallbackTypedef
  | setMouseCallbackDecl
deriving DecidableEq

/-- Preprocessor state relevant to the header: whether the guard name
__GOCVUI_OPENCV3_HIGHGUI_H_ is currently defined. -/
structure PPState where
  guardDefined : Bool
deriving DecidableEq

/-- Including the header once, following its guard structure (lines 1, 2 and
17): a first inclusion defines the guard and introduces the typedef and the
function declaration; an inclusion with the guard already defined introduces
nothing. -/
def includeHeader (s : PPState) : PPState × List HeaderDeclName :=
  if s.guardDefined then (s, [])
  else (⟨true⟩, [HeaderDeclName.mouseCallbackTypedef, HeaderDeclName.setMouseCallbackDecl])

/-- Including the header a given number of times in one translation unit,
collecting all declarations introduced. -/
def includeTimes : Nat → PPState → PPState × List HeaderDeclName
  | 0, s => (s, [])
  | n + 1, s =>
    let one := includeHeader s
    let rest := includeTimes n one.1
    (rest.1, one.2 ++ rest.2)

/-- Linkage of a declaration in the header: written at top level of a plain
C translation unit, or inside the C-linkage block that the header opens in
C++ mode. -/
inductive Linkage where
  | plainC
  | cLinkBlock
deriving DecidableEq

/-- An item of the header as the preprocessor leaves it. -/
inductive HeaderItem where
  | opencvHeader
  | typedefItem (name : String) (ty : CType) (lk : Linkage)
  | funItem (d : CFunDecl) (lk : Linkage)

/-- The items of the header as a function of whether __cplusplus is defined:
in C++ mode the OpenCV include appears and both declarations sit inside the
C-linkage block; in plain C mode the include and the block are elided and
the declarations are ordinary top-level C declarations. -/
def headerItems (cplusplus : Bool) : List HeaderItem :=
  (if cplusplus then [HeaderItem.opencvHeader] else [])
  ++ [HeaderItem.typedefItem "MouseCallback" MouseCallback
        (if cplusplus then Linkage.cLinkBlock else Linkage.plainC),
      HeaderItem.funItem Set_Mouse_Callback_decl
        (if cplusplus then Linkage.cLinkBlock else Linkage.plainC)]

/-- The ABI a linkage gives to a declaration: both a plain C declaration and
a declaration inside a C-linkage block in C++ get the C ABI. -/
inductive ABI where
  | cABI
deriving DecidableEq

/-- Map a linkage to the ABI it yields. -/
def Linkage.abi : Linkage → ABI
  | Linkage.plainC => ABI.cABI
  | Linkage.cLinkBlock => ABI.cABI

/-- A declaration exposed by the header itself, viewed at the ABI level: its
name, its shape (typedef type or function signature), and its ABI. -/
structure Exposed where
  name : String
  tydef : Option CType
  fn : Option CFunDecl
  abi : ABI

/-- The ABI-level view of one header item; the include of the third-party
header is not a declaration of this header itself. -/
def exposedOf : HeaderItem → List Exposed
  | HeaderItem.opencvHeader => []
  | HeaderItem.typedefItem n t lk => [⟨n, some t, none, lk.abi⟩]
  | HeaderItem.funItem d lk => [⟨d.name, none, some d, lk.abi⟩]

/-- All declarations the header itself exposes, at the ABI level, as a
function of the compilation mode. -/
def headerExposed (cplusplus : Bool) : List Exposed :=
  (headerItems cplusplus).flatMap exposedOf

lemma runRegs_table_of_ne (w : String) (regs : List (String × Ptr × Ptr)) (s : LibState) (h : ∀ r ∈ regs, r.1 ≠ w) : (runRegs regs s).table w = s.table w := by
  induction regs generalizing s with
  | nil => rfl
  | cons a rest ih =>
    have hrest : ∀ r ∈ rest, r.1 ≠ w := fun r hr => h r (List.mem_cons_of_mem a hr)
    have ha : a.1 ≠ w := h a (List.mem_cons_self a rest)
    show (runRegs rest (registerTable a.1 a.2.1 a.2.2 s)).table w = s.table w
    have ht : (registerTable a.1 a.2.1 a.2.2 s).table w = s.table w := by
      simp only [registerTable]
      exact if_neg (fun hw => ha hw.symm)
    rw [ih _ hrest, ht]

lemma includeTimes_guarded (n : Nat) : includeTimes n ⟨true⟩ = (⟨true⟩, []) := by
  induction n with
  | zero => rfl
  | succ n ih =>
    show (let one := includeHeader ⟨true⟩
          let rest := includeTimes n one.1
          ((rest.1, one.2 ++ rest.2) : PPState × List HeaderDeclName)) = (⟨true⟩, [])
    simp [includeHeader, ih]

/-- Claim C1: calling Set_Mouse_Callback(w, c, p) registers c with the
underlying library so that a subsequent mouse event on window w — also
after further registrations on other windows — invokes the registered
callback pointer with exactly the event-kind, x, y and flags of that event
and the same user-data pointer p supplied at registration. -/
theorem set_mouse_callback_registers (w : String) (c p : Ptr) (s s' : LibState) (regs : List (String × Ptr × Ptr)) (event x y flags : Int) (hok : Set_Mouse_Callback okLib w c p s = Except.ok s') (hne : ∀ r ∈ regs, r.1 ≠ w) : dispatchEvent (runRegs regs s') w event x y flags = some ⟨c, event, x, y, flags, p⟩ := by
  have hs' : s' = registerTable w c p s := by
    have h := hok
    simp only [Set_Mouse_Callback, okLib, Except.ok.injEq] at h
    exact h.symm
  subst hs'
  unfold dispatchEvent
  rw [runRegs_table_of_ne w regs _ hne]
  simp [registerTable]

theorem set_mouse_callback_registers_witness : dispatchEvent (runRegs [("other", 5, 6)] (registerTable "win" 7 9 emptyLib)) "win" 1 2 3 4 = some ⟨7, 1, 2, 3, 4, 9⟩ :=
  set_mouse_callback_registers "win" 7 9 emptyLib (registerTable "win" 7 9 emptyLib) [("other", 5, 6)] 1 2 3 4 rfl (by decide)

/-- Claim C2: a second registration via Set_Mouse_Callback on the same
window overwrites the first: after it, a mouse event on that window invokes
only the second callback with its own user-data pointer, and never the
first callback (when the two differ). -/
theorem second_registration_replaces_first (w : String) (c1 p1 c2 p2 : Ptr) (s s1 s2 : LibState) (event x y flags : Int) (h1 : Set_Mouse_Callback okLib w c1 p1 s = Except.ok s1) (h2 : Set_Mouse_Callback okLib w c2 p2 s1 = Except.ok s2) : dispatchEvent s2 w event x y flags = some ⟨c2, event, x, y, flags, p2⟩ ∧ ∀ inv, dispatchEvent s2 w event x y flags = some inv → inv.cb = c2 ∧ inv.param = p2 ∧ (c1 ≠ c2 → inv.cb ≠ c1) := by
  have hs2 : s2 = registerTable w c2 p2 s1 := by
    have h := h2
    simp only [Set_Mouse_Callback, okLib, Except.ok.injEq] at h
    exact h.symm
  subst hs2
  have hd : dispatchEvent (registerTable w c2 p2 s1) w event x y flags = some ⟨c2, event, x, y, flags, p2⟩ := by
    unfold dispatchEvent
    simp [registerTable]
  refine ⟨hd, fun inv hinv => ?_⟩
  rw [hd] at hinv
  have hinv' : inv = ⟨c2, event, x, y, flags, p2⟩ := (Option.some.injEq _ _).mp hinv.symm
  subst hinv'
  exact ⟨rfl, rfl, fun hne h12 => hne h12.symm⟩

theorem second_registration_replaces_first_witness : dispatchEvent (registerTable "w" 3 4 (registerTable "w" 1 2 emptyLib)) "w" 0 5 6 7 = some ⟨3, 0, 5, 6, 7, 4⟩ :=
  (second_registration_replaces_first "w" 1 2 3 4 emptyLib (registerTable "w" 1 2 emptyLib) (registerTable "w" 3 4 (registerTable "w" 1 2 emptyLib)) 0 5 6 7 rfl rfl).1

/-- Claim C3: the header declares Set_Mouse_Callback with exactly three
parameters — a window-name string and two fully untyped void pointers for
the callback and the user data — returning void, and the callback parameter
does not use the declared MouseCallback function-pointer type. -/
theorem set_mouse_callback_signature : Set_Mouse_Callback_decl.params.length = 3 ∧ Set_Mouse_Callback_decl.params = [CType.constCharPtr, CType.voidPtr, CType.voidPtr] ∧ Set_Mouse_Callback_decl.ret = CType.void ∧ Set_Mouse_Callback_decl.params.get? 1 = some CType.voidPtr ∧ Set_Mouse_Callback_decl.params.get? 1 ≠ some MouseCallback := by
  refine ⟨rfl, rfl, rfl, rfl, ?_⟩
  intro h
  injection h with h'
  exact CType.noConfusion h'

/-- Claim C4: the MouseCallback typedef is a pointer to a function taking
exactly five arguments — an int event kind, int coordinates x and y, an int
flags bitmask and a void* user-data pointer — returning void, and every
invocation a dispatched event produces carries exactly these five argument
slots: the event data in the first four and the registered user-data
pointer in the fifth. -/
theorem mouse_callback_five_slots (s : LibState) (w : String) (event x y flags : Int) (cb prm : Ptr) (inv : Invocation) (hreg : s.table w = some (cb, prm)) (hinv : dispatchEvent s w event x y flags = some inv) : MouseCallback = CType.funPtr [CType.int, CType.int, CType.int, CType.int, CType.voidPtr] CType.void ∧ MouseCallback.arity = 5 ∧ inv = ⟨cb, event, x, y, flags, prm⟩ := by
  refine ⟨rfl, rfl, ?_⟩
  unfold dispatchEvent at hinv
  rw [hreg] at hinv
  exact (Option.some_inj.mp hinv).symm

theorem mouse_callback_five_slots_witness : MouseCallback = CType.funPtr [CType.int, CType.int, CType.int, CType.int, CType.voidPtr] CType.void ∧ MouseCallback.arity = 5 ∧ (⟨7, 1, 2, 3, 4, 9⟩ : Invocation) = ⟨7, 1, 2, 3, 4, 9⟩ :=
  mouse_callback_five_slots (registerTable "win" 7 9 emptyLib) "win" 1 2 3 4 7 9 ⟨7, 1, 2, 3, 4, 9⟩ (by decide) (by decide)

/-- Claim C5: the bridge generates no error of its own and neither catches
nor translates a failure of the wrapped library: whatever the library call
returns at the forwarded arguments — success or native error — is the
bridge's own result, unchanged. -/
theorem set_mouse_callback_no_error (lib : LibRegister) (w : String) (c p : Ptr) (s : LibState) : (∀ e, lib w c p s = Except.error e → Set_Mouse_Callback lib w c p s = Except.error e) ∧ (∀ s', lib w c p s = Except.ok s' → Set_Mouse_Callback lib w c p s = Except.ok s') :=
  ⟨fun _ h => h, fun _ h => h⟩

theorem set_mouse_callback_no_error_witness : Set_Mouse_Callback (fun _ _ _ _ => Except.error 42) "w" 0 0 emptyLib = Except.error 42 :=
  (set_mouse_callback_no_error (fun _ _ _ _ => Except.error 42) "w" 0 0 emptyLib).1 42 rfl

/-- Claim C6: the bridge forwards the callback and user-data pointers
uninterpreted, with no type check, null check, or branch on their values:
for every pointer pair, including the null callback pointer, its result is
exactly the library's result at those same pointers, so any failure happens
inside the wrapped library, never in the bridge itself. -/
theorem set_mouse_callback_uninterpreted (lib : LibRegister) (w : String) (c p : Ptr) (s : LibState) : Set_Mouse_Callback lib w c p s = lib w c p s ∧ Set_Mouse_Callback lib w 0 p s = lib w 0 p s :=
  ⟨rfl, rfl⟩

/-- Claim C7: the shim is stateless and deterministic: the calls it issues
for one invocation form a single pass-through call determined only by that
invocation's own three arguments, independent of any prior calls and of the
library state those calls produced. -/
theorem shim_stateless (a : LibCall) (h1 h2 : List LibCall) (s1 s2 : LibState) : (shimStep a (shimRun h1 s1).1).2 = (shimStep a (shimRun h2 s2).1).2 ∧ (shimStep a s1).2 = [a] :=
  ⟨rfl, rfl⟩

/-- Claim C8: frame property — a registration through Set_Mouse_Callback on
window w changes only that window's callback-table entry: every other
window's registration, and hence its event dispatch, is unchanged. -/
theorem set_mouse_callback_frame (w w' : String) (c p : Ptr) (s s' : LibState) (event x y flags : Int) (hok : Set_Mouse_Callback okLib w c p s = Except.ok s') (hne : w' ≠ w) : s'.table w' = s.table w' ∧ dispatchEvent s' w' event x y flags = dispatchEvent s w' event x y flags := by
  have hs' : s' = registerTable w c p s := by
    have h := hok
    simp only [Set_Mouse_Callback, okLib, Except.ok.injEq] at h
    exact h.symm
  subst hs'
  have ht : (registerTable w c p s).table w' = s.table w' := by
    simp [registerTable, hne]
  refine ⟨ht, ?_⟩
  unfold dispatchEvent
  rw [ht]

theorem set_mouse_callback_frame_witness : (registerTable "a" 1 2 emptyLib).table "b" = emptyLib.table "b" ∧ dispatchEvent (registerTable "a" 1 2 emptyLib) "b" 0 0 0 0 = dispatchEvent emptyLib "b" 0 0 0 0 :=
  set_mouse_callback_frame "a" "b" 1 2 emptyLib (registerTable "a" 1 2 emptyLib) 0 0 0 0 rfl (by decide)

/-- Claim C9: the include guard makes the header idempotent under multiple
inclusion: including it any positive number of times in one translation
unit yields the same preprocessor state and the same declarations — the
MouseCallback typedef and the Set_Mouse_Callback declaration exactly once —
as including it once. -/
theorem header_idempotent (n : Nat) (h : 1 ≤ n) : includeTimes n ⟨false⟩ = includeTimes 1 ⟨false⟩ ∧ (includeTimes n ⟨false⟩).2 = [HeaderDeclName.mouseCallbackTypedef, HeaderDeclName.setMouseCallbackDecl] := by
  obtain ⟨m, rfl⟩ : ∃ m, n = m + 1 := ⟨n - 1, (Nat.succ_pred_eq_of_pos h).symm⟩
  have key : includeTimes (m + 1) ⟨false⟩ = (⟨true⟩, [HeaderDeclName.mouseCallbackTypedef, HeaderDeclName.setMouseCallbackDecl]) := by
    show (let one := includeHeader ⟨false⟩
          let rest := includeTimes m one.1
          ((rest.1, one.2 ++ rest.2) : PPState × List HeaderDeclName)) = _
    simp [includeHeader, includeTimes_guarded m]
  constructor
  · rw [key]
    rfl
  · rw [key]

theorem header_idempotent_witness : includeTimes 3 ⟨false⟩ = includeTimes 1 ⟨false⟩ :=
  (header_idempotent 3 (by decide)).1

/-- Claim C10: under both compilation modes — __cplusplus undefined (plain
C, with the OpenCV include and the C-linkage block elided) and defined
(C++, with the declarations inside the C-linkage block) — the header
exposes exactly the same two declarations, MouseCallback and
Set_Mouse_Callback, with identical C-ABI signatures. -/
theorem header_same_abi_both_modes : headerExposed true = headerExposed false ∧ (headerExposed true).length = 2 ∧ (headerExposed true).map Exposed.name = ["MouseCallback", "Set_Mouse_Callback"] :=
  ⟨rfl, rfl, rfl⟩

end Gocvui
